import Mathlib

/-!
Verification of the PostHog driver HTTP client contract layer
(`posthog_driver/client.py`), the script-template substitution
(`agent_executor.py`, `script_templates.py`) and the natural-language
routing (`claude_agent_with_posthog.py`).

The stateful request executor `PostHogClient._make_request` is embedded as a
function over a schedule `Nat → Outcome` that gives the outcome of each HTTP
attempt (a server response with status / optional parsed JSON body / body
text, a connection error, or a timeout).  The executor returns the final
result together with the number of attempts performed.  Client methods are
embedded as functions that also return the list of request descriptors they
hand to the executor.
-/

set_option maxHeartbeats 1000000

/-- Characters used literally in the Python sources that are awkward inside
Lean string literals are built from their code points. -/
def singleQuote : Char := Char.ofNat 39

/-- A one-character string holding a single quote. -/
def sqStr : String := String.singleton singleQuote

/-- Opening curly brace character. -/
def lbrace : Char := Char.ofNat 123

/-- Closing curly brace character. -/
def rbrace : Char := Char.ofNat 125

/-- JSON values, as exchanged with the remote API (shallow embedding of the
Python dict/list/str/int/bool payloads used by the client). -/
inductive Json where
  | str (s : String)
  | num (n : Nat)
  | bool (b : Bool)
  | arr (elems : List Json)
  | obj (fields : List (String × Json))

/-- The closed error taxonomy of `posthog_driver/exceptions.py`.
`posthog` is the base `PostHogError`; every other constructor is one of its
subclasses.  Each error carries its message string. -/
inductive PHError where
  | posthog (msg : String)
  | authentication (msg : String)
  | objectNotFound (msg : String)
  | queryError (msg : String)
  | connection (msg : String)
  | rateLimit (msg : String)
  | validation (msg : String)

/-- Outcome of one HTTP attempt (`self.session.request(...)`): either a server
response (with status code, the parsed JSON body if the body parses as JSON,
and the raw body text), a `requests.ConnectionError`, or a
`requests.Timeout`. -/
inductive Outcome where
  | response (status : Nat) (body : Option Json) (text : String)
  | connError (msg : String)
  | timeout

/-- A request descriptor handed to `_make_request`: HTTP method, whether the
capture host is used (`use_capture_url`), endpoint path, optional JSON
payload. -/
structure Request where
  method : String
  useCaptureUrl : Bool
  endpoint : String
  body : Option Json

/-- Result of `_make_request`: the returned value (`none` when the Python
function falls off the end of the retry loop and implicitly returns `None`,
otherwise the raised error or returned JSON), plus the number of HTTP
attempts performed. -/
structure MRes where
  result : Option (Except PHError Json)
  attemptsMade : Nat

/-- Message of the `RateLimitError` raised on a 429 response
(two adjacent Python string literals, concatenated). -/
def rateLimitMessage : String :=
  "Rate limit exceeded. PostHog limits: 240/min, 1200/hour for " ++
    "analytics; 2400/hour for queries. Consider using batch exports."

/-- What one iteration of the retry loop does with the attempt's outcome:
either terminate with a value/raised error, or fall through to the next
iteration (the `except` clauses that do not re-raise when the attempt is not
the last one). -/
inductive StepRes where
  | terminal (r : Except PHError Json)
  | retry

/-- One iteration of the retry loop of `_make_request`, for the attempt with
index `attempt` (0-based, as produced by `range(max_retries)`), given the
attempt's outcome.  Mirrors the body of the `for` loop in
`client.py:124-176`: the status-code checks, `raise_for_status()` (which
raises `requests.HTTPError` exactly for statuses in `[400, 600)`), the JSON
decode fallback, and the three `except` clauses.  The `str(e)` text of a
`requests.HTTPError` is abbreviated to the status code; no claim depends on
that message. -/
def stepOutcome (endpoint : String) (timeout maxRetries attempt : Nat) :
    Outcome → StepRes
  | .response status body text =>
    if status = 401 then
      .terminal (.error (.authentication
        "Authentication failed. Check your Personal API key."))
    else if status = 403 then
      .terminal (.error (.authentication
        "Access forbidden. Check API key permissions."))
    else if status = 404 then
      .terminal (.error (.objectNotFound ("Resource not found: " ++ endpoint)))
    else if status = 429 then
      .terminal (.error (.rateLimit rateLimitMessage))
    else if 400 ≤ status ∧ status < 600 then
      if 400 ≤ status ∧ status < 500 then
        .terminal (.error (.posthog ("API error: " ++ text)))
      else if attempt = maxRetries - 1 then
        .terminal (.error (.posthog ("HTTP error: status " ++ toString status)))
      else .retry
    else
      match body with
      | some j => .terminal (.ok j)
      | none => .terminal (.ok (Json.obj
          [("success", Json.bool true), ("status_code", Json.num status)]))
  | .connError msg =>
    if attempt = maxRetries - 1 then
      .terminal (.error (.connection
        ("Failed to connect to PostHog API after " ++ toString maxRetries ++
          " attempts: " ++ msg)))
    else .retry
  | .timeout =>
    if attempt = maxRetries - 1 then
      .terminal (.error (.posthog
        ("Request timeout after " ++ toString timeout ++ " seconds")))
    else .retry

/-- The retry loop `for attempt in range(self.max_retries)` of
`_make_request`, starting at attempt index `attempt` with `remaining`
iterations left (invariant at the entry point: `attempt = 0`,
`remaining = maxRetries`).  Falling off the loop returns `None` in Python,
modelled by a `none` result. -/
def attemptLoop (endpoint : String) (timeout maxRetries : Nat)
    (sched : Nat → Outcome) : Nat → Nat → MRes
  | attempt, 0 => ⟨none, attempt⟩
  | attempt, remaining + 1 =>
    match stepOutcome endpoint timeout maxRetries attempt (sched attempt) with
    | .terminal r => ⟨some r, attempt + 1⟩
    | .retry =>
      attemptLoop endpoint timeout maxRetries sched (attempt + 1) remaining

/-- `PostHogClient._make_request` on a request descriptor, given the schedule
of attempt outcomes. -/
def makeRequest (req : Request) (timeout maxRetries : Nat)
    (sched : Nat → Outcome) : MRes :=
  attemptLoop req.endpoint timeout maxRetries sched 0 maxRetries

/-- An outcome that the retry loop retries when the attempt is not the last
one: a connection error, a timeout, or a response with a server-error status
in `[500, 600)` (for which `raise_for_status` raises and the `HTTPError`
handler does not re-raise). -/
def retryable : Outcome → Bool
  | .response s _ _ => decide (500 ≤ s ∧ s < 600)
  | .connError _ => true
  | .timeout => true

/-- The classified failure raised for a 4xx response, per the status-code
checks of `_make_request`. -/
def classify4xx (endpoint : String) (status : Nat) (text : String) : PHError :=
  if status = 401 then
    .authentication "Authentication failed. Check your Personal API key."
  else if status = 403 then
    .authentication "Access forbidden. Check API key permissions."
  else if status = 404 then
    .objectNotFound ("Resource not found: " ++ endpoint)
  else if status = 429 then
    .rateLimit rateLimitMessage
  else
    .posthog ("API error: " ++ text)

/-- Constructor default for `timeout` (`client.py:50`). -/
def defaultTimeout : Nat := 30

/-- Constructor default for `max_retries` (`client.py:51`). -/
def defaultMaxRetries : Nat := 3

/-- Python whitespace characters recognised by `str.strip()`:
space, tab, newline, carriage return, vertical tab, form feed. -/
def isPySpace (c : Char) : Bool :=
  c.toNat = 32 || c.toNat = 9 || c.toNat = 10 || c.toNat = 13 ||
    c.toNat = 11 || c.toNat = 12

/-- Python `str.strip()`: drop leading and trailing whitespace. -/
def pyStrip (s : String) : String :=
  String.mk (((s.data.dropWhile isPySpace).reverse.dropWhile isPySpace).reverse)

/-- One scanning pass of Python `str.replace(old, new)` with an explicit
fuel argument (the fuel is the length of the string being scanned, which
bounds the number of steps; each step consumes at least one character).
At each position: if `old` is a non-empty prefix of the remaining string,
emit `new` and continue after the matched occurrence, otherwise keep the
character.  The empty-pattern case of Python is never exercised here. -/
def pyReplaceAux (old new : List Char) : Nat → List Char → List Char
  | 0, s => s
  | _ + 1, [] => []
  | fuel + 1, c :: rest =>
    if !old.isEmpty && old.isPrefixOf (c :: rest) then
      new ++ pyReplaceAux old new fuel (List.drop (old.length - 1) rest)
    else
      c :: pyReplaceAux old new fuel rest

/-- Python `s.replace(old, new)` (all non-overlapping occurrences,
left to right). -/
def pyReplace (s old new : List Char) : List Char :=
  pyReplaceAux old new s.length s

/-- Python substring membership `sub in s`. -/
def containsSub : List Char → List Char → Bool
  | [], sub => sub.isEmpty
  | c :: rest, sub => sub.isPrefixOf (c :: rest) || containsSub rest sub

/-- ASCII lower-casing of one character (the fragment of Python
`str.lower()` exercised by the routing keywords, which are all ASCII). -/
def asciiLower (c : Char) : Char :=
  if 65 ≤ c.toNat ∧ c.toNat ≤ 90 then Char.ofNat (c.toNat + 32) else c

/-- Capture-host derivation (`client.py:93`):
`self.capture_url = self.api_url.replace('posthog.com', 'i.posthog.com')`. -/
def captureUrlOf (apiUrl : String) : String :=
  String.mk (pyReplace apiUrl.data "posthog.com".data "i.posthog.com".data)

/-- URL resolution of `_make_request` (`client.py:121-122`):
`base_url = self.capture_url if use_capture_url else self.api_url`,
`url = f"..."` appending the endpoint. -/
def requestUrl (apiUrl : String) (r : Request) : String :=
  (if r.useCaptureUrl then captureUrlOf apiUrl else apiUrl) ++ r.endpoint

/-- The request descriptor built by `PostHogClient.query`
(`client.py:380-390`): POST to `/api/projects/{project_id}/query/` on the
main host with payload
`{"query": {"kind": "HogQLQuery", "query": hogql_query}}`. -/
def queryRequest (projectId hogqlQuery : String) : Request :=
  { method := "POST"
    useCaptureUrl := false
    endpoint := "/api/projects/" ++ projectId ++ "/query/"
    body := some (Json.obj
      [("query", Json.obj
        [("kind", Json.str "HogQLQuery"), ("query", Json.str hogqlQuery)])]) }

/-- Message of the `AttributeError` raised by `result.get(...)` when
`_make_request` returned `None` (Python:
`'NoneType' object has no attribute 'get'`). -/
def noneGetAttrMsg : String :=
  sqStr ++ "NoneType" ++ sqStr ++ " object has no attribute " ++
    sqStr ++ "get" ++ sqStr

/-- What `query` does with the value produced by `_make_request`
(`client.py:392-397`): `result.get('results', [])`, re-raising a
`PostHogError` unchanged (`except PostHogError: raise`) and wrapping any
other exception as `QueryError(f"Query execution failed: {e}")`.  A `None`
or non-dict result makes `.get` raise an `AttributeError`, which is wrapped;
the non-dict attribute-error message is abbreviated since no claim inspects
it. -/
def queryPost : Option (Except PHError Json) → Except PHError Json
  | some (.error e) => .error e
  | some (.ok j) =>
    match j with
    | Json.obj fields =>
      match List.lookup "results" fields with
      | some v => .ok v
      | none => .ok (Json.arr [])
    | _ => .error (.queryError "Query execution failed: no attribute get")
  | none => .error (.queryError ("Query execution failed: " ++ noneGetAttrMsg))

/-- `PostHogClient.query` (`client.py:356-397`): validation of the query
string (`if not hogql_query or not hogql_query.strip()`), then one
`_make_request` call.  Returns the result together with the list of request
descriptors handed to `_make_request`. -/
def queryModel (projectId : String) (timeout maxRetries : Nat)
    (sched : Nat → Outcome) (hogqlQuery : String) :
    Except PHError Json × List Request :=
  if hogqlQuery = "" ∨ pyStrip hogqlQuery = "" then
    (.error (.validation "Query cannot be empty"), [])
  else
    (queryPost (makeRequest (queryRequest projectId hogqlQuery)
        timeout maxRetries sched).result,
      [queryRequest projectId hogqlQuery])

/-- Python truthiness of the optional `project_api_key` string
(`if not self.project_api_key`): falsy when absent or empty. -/
def keyTruthy : Option String → Bool
  | none => false
  | some s => !(s = "")

/-- The request descriptor built by `PostHogClient.capture_batch`
(`client.py:491-501`): POST to `/batch/` on the capture host with payload
`{'api_key': self.project_api_key, 'batch': events}`. -/
def captureBatchRequest (projectApiKey : String) (events : List Json) :
    Request :=
  { method := "POST"
    useCaptureUrl := true
    endpoint := "/batch/"
    body := some (Json.obj
      [("api_key", Json.str projectApiKey), ("batch", Json.arr events)]) }

/-- Lifting of a `_make_request` result to a method that returns it directly
(`return self._make_request(...)`): the `None` fall-off value is returned
as-is. -/
def mrReturn : Option (Except PHError Json) → Except PHError (Option Json)
  | some (.ok j) => .ok (some j)
  | some (.error e) => .error e
  | none => .ok none

/-- `PostHogClient.capture_batch` (`client.py:450-501`): requires a truthy
project API key, rejects an empty events list, then POSTs the batch payload
to `/batch/` on the capture host.  Returns the result together with the
requests handed to `_make_request`. -/
def captureBatchModel (projectApiKey : Option String) (events : List Json)
    (timeout maxRetries : Nat) (sched : Nat → Outcome) :
    Except PHError (Option Json) × List Request :=
  if !keyTruthy projectApiKey then
    (.error (.authentication "Project API key required for event capture"), [])
  else
    if events.isEmpty then
      (.error (.validation "Events list cannot be empty"), [])
    else
      (mrReturn (makeRequest
          (captureBatchRequest (projectApiKey.getD "") events)
          timeout maxRetries sched).result,
        [captureBatchRequest (projectApiKey.getD "") events])

/-- `PostHogClient.list_objects` (`client.py:180-206`): the fixed ordered
list of the 8 entity-type names. -/
def listObjects : List String :=
  ["events", "insights", "persons", "cohorts", "feature_flags",
    "sessions", "annotations", "experiments"]

/-- A field definition: the key/value pairs of the per-field dict
(`{'type': ..., 'description': ...}`). -/
abbrev FieldSpec := List (String × String)

/-- An entity schema: field name to field definition. -/
abbrev EntityFields := List (String × FieldSpec)

/-- The static `schemas` dict of `PostHogClient.get_fields`
(`client.py:221-345`), transcribed entry for entry. -/
def schemas : List (String × EntityFields) :=
  [ ("events",
      [ ("event",
          [("type", "string"),
            ("description",
              "Event name (e.g., \"User Signup\", \"Button Click\")")]),
        ("timestamp",
          [("type", "datetime"),
            ("description", "When the event occurred (ISO 8601 format)")]),
        ("distinct_id",
          [("type", "string"),
            ("description", "Unique user identifier")]),
        ("properties",
          [("type", "object"),
            ("description", "Event properties (custom key-value pairs)")]),
        ("person",
          [("type", "object"),
            ("description",
              "Associated person object with user properties")])]),
    ("insights",
      [ ("id", [("type", "string"), ("description", "Unique insight ID")]),
        ("name", [("type", "string"), ("description", "Insight name")]),
        ("filters",
          [("type", "object"),
            ("description",
              "Insight configuration (events, date ranges, filters)")]),
        ("result",
          [("type", "array"),
            ("description",
              "Computed insight results (trends, funnel steps, etc.)")]),
        ("insight",
          [("type", "string"),
            ("description",
              "Insight type: TRENDS, FUNNELS, RETENTION, PATHS")]),
        ("created_at",
          [("type", "datetime"), ("description", "Creation timestamp")])]),
    ("persons",
      [ ("id", [("type", "string"), ("description", "Person UUID")]),
        ("distinct_ids",
          [("type", "array"),
            ("description", "List of distinct IDs for this person")]),
        ("properties",
          [("type", "object"),
            ("description",
              "Person properties (email, name, custom attributes)")]),
        ("created_at",
          [("type", "datetime"), ("description", "First seen timestamp")])]),
    ("cohorts",
      [ ("id", [("type", "number"), ("description", "Cohort ID")]),
        ("name", [("type", "string"), ("description", "Cohort name")]),
        ("description",
          [("type", "string"), ("description", "Cohort description")]),
        ("filters",
          [("type", "object"),
            ("description",
              "Cohort definition (behavioral/property filters)")]),
        ("count",
          [("type", "number"),
            ("description", "Number of persons in cohort")])]),
    ("feature_flags",
      [ ("id", [("type", "number"), ("description", "Flag ID")]),
        ("key",
          [("type", "string"), ("description", "Flag key (identifier)")]),
        ("name", [("type", "string"), ("description", "Flag name")]),
        ("active",
          [("type", "boolean"), ("description", "Whether flag is active")]),
        ("rollout_percentage",
          [("type", "number"),
            ("description", "Percentage of users with flag enabled")]),
        ("filters",
          [("type", "object"),
            ("description", "Targeting rules and conditions")])]),
    ("sessions",
      [ ("session_id",
          [("type", "string"), ("description", "Unique session ID")]),
        ("distinct_id",
          [("type", "string"), ("description", "User identifier")]),
        ("start_time",
          [("type", "datetime"), ("description", "Session start")]),
        ("end_time", [("type", "datetime"), ("description", "Session end")]),
        ("events_count",
          [("type", "number"),
            ("description", "Number of events in session")]),
        ("recording_url",
          [("type", "string"),
            ("description", "URL to session replay (if available)")])]),
    ("annotations",
      [ ("id", [("type", "number"), ("description", "Annotation ID")]),
        ("content",
          [("type", "string"), ("description", "Annotation text")]),
        ("date_marker",
          [("type", "datetime"),
            ("description", "Date marked on timeline")]),
        ("scope",
          [("type", "string"),
            ("description", "organization or project")])]),
    ("experiments",
      [ ("id", [("type", "number"), ("description", "Experiment ID")]),
        ("name", [("type", "string"), ("description", "Experiment name")]),
        ("feature_flag_key",
          [("type", "string"), ("description", "Associated feature flag")]),
        ("variants",
          [("type", "array"),
            ("description", "Experiment variants (control, test)")]),
        ("results",
          [("type", "object"),
            ("description", "Statistical analysis results")])])]

/-- The message of the `ObjectNotFoundError` raised by `get_fields` for an
unknown entity-type name (`client.py:347-352`), with
`available = ', '.join(self.list_objects())`. -/
def unknownObjectMsg (objectName : String) : String :=
  "Unknown object type " ++ sqStr ++ objectName ++ sqStr ++
    ". Available types: " ++ String.intercalate ", " listObjects

/-- `PostHogClient.get_fields` (`client.py:208-354`): look the name up in the
static `schemas` dict, raising `ObjectNotFoundError` when absent. -/
def getFields (objectName : String) : Except PHError EntityFields :=
  match List.lookup objectName schemas with
  | some flds => .ok flds
  | none => .error (.objectNotFound (unknownObjectMsg objectName))

/-- The placeholder string built by `execute_template`
(`agent_executor.py:172`): `f"{{{var_name}}}"`, i.e. the variable name in
curly braces. -/
def placeholderOf (varName : String) : List Char :=
  lbrace :: varName.data ++ [rbrace]

/-- The substitution loop of `PostHogAgentExecutor.execute_template`
(`agent_executor.py:170-173`): for each `(var_name, var_value)` pair of the
caller-supplied mapping (in order), `script = script.replace(placeholder,
var_value)`. -/
def substituteVars (script : String) : List (String × String) → String
  | [] => script
  | (varName, varValue) :: rest =>
    substituteVars
      (String.mk (pyReplace script.data (placeholderOf varName) varValue.data))
      rest

/-- The result record returned by `execute_template`: either the unknown-
template error record, or the substituted script (handed to the sandbox
executor, which is outside the specified core). -/
def executeTemplateScript (templates : List (String × String))
    (templateName : String) (templateVars : List (String × String)) :
    Except String String :=
  match List.lookup templateName templates with
  | none => .error ("Unknown template: " ++ templateName)
  | some script => .ok (substituteVars script templateVars)

/-- `get_template` of `script_templates.py:485-503`: raise `KeyError` with a
message enumerating the registry keys when the name is unknown, otherwise
return the template. -/
def getTemplate (registry : List (String × String)) (name : String) :
    Except String String :=
  match List.lookup name registry with
  | none => .error ("Unknown template " ++ sqStr ++ name ++ sqStr ++
      ". Available templates: " ++
      String.intercalate ", " (registry.map Prod.fst))
  | some t => .ok t

/-- The five query categories of `QUERY_TEMPLATES` in
`claude_agent_with_posthog.py:65-130`. -/
inductive QueryCategory where
  | topEvents
  | userFunnel
  | conversionAnalysis
  | activityDistribution
  | timePatterns
deriving DecidableEq

/-- Keyword list of the first routing branch (`claude_agent_with_posthog.py:141`). -/
def topEventsKeywords : List String :=
  ["top events", "most common", "popular events"]

/-- Keyword list of the second routing branch (line 144). -/
def funnelKeywords : List String :=
  ["drop off", "funnel", "user journey"]

/-- Keyword list of the third routing branch (line 147). -/
def conversionKeywords : List String :=
  ["conversion", "purchase", "buy", "subscribe"]

/-- Keyword list of the fourth routing branch (line 150). -/
def activityKeywords : List String :=
  ["activity", "engagement", "active users"]

/-- Keyword list of the fifth routing branch (line 153). -/
def timeKeywords : List String :=
  ["time", "when", "hour", "day"]

/-- `any(word in question_lower for word in [...])`. -/
def anyKeyword (questionLower : List Char) (keywords : List String) : Bool :=
  keywords.any (fun w => containsSub questionLower w.data)

/-- `question.lower()` (ASCII fragment). -/
def questionLower (question : String) : List Char :=
  question.data.map asciiLower

/-- The category selection of `question_to_query`
(`claude_agent_with_posthog.py:140-158`): ordered keyword matching with
fall-through to `top_events`. -/
def questionCategory (question : String) : QueryCategory :=
  let ql := questionLower question
  if anyKeyword ql topEventsKeywords then .topEvents
  else if anyKeyword ql funnelKeywords then .userFunnel
  else if anyKeyword ql conversionKeywords then .conversionAnalysis
  else if anyKeyword ql activityKeywords then .activityDistribution
  else if anyKeyword ql timeKeywords then .timePatterns
  else .topEvents

/-- The day-count mapping of `question_to_query`
(`claude_agent_with_posthog.py:135-136`):
`days_map = {"7_days": 7, "30_days": 30, "90_days": 90}` and
`days = days_map.get(time_period, 30)`. -/
def daysOf (timePeriod : String) : Nat :=
  (List.lookup timePeriod [("7_days", 7), ("30_days", 30), ("90_days", 90)]).getD 30

/-- `question_to_query(question, time_period)` abstracted to the pair that
determines its return value: the source returns
`QUERY_TEMPLATES[category].format(days=days)`, so the selected category and
the substituted day count determine the returned query string. -/
def questionToQuery (question timePeriod : String) : QueryCategory × Nat :=
  (questionCategory question, daysOf timePeriod)

/-- The retry condition asserted by the specification (claim C2): only
connection failures and timeouts are retried.  Compare `retryable`, the
condition actually implemented by the loop. -/
def claimedRetryable : Outcome → Bool
  | .response _ _ _ => false
  | .connError _ => true
  | .timeout => true

/-! ### Structural lemmas about the retry loop -/

theorem attemptLoop_attemptsMade_le (ep : String) (t mr : Nat)
    (sched : Nat → Outcome) :
    ∀ r a, (attemptLoop ep t mr sched a r).attemptsMade ≤ a + r := by
  intro r
  induction r with
  | zero => intro a; simp [attemptLoop]
  | succ r ih =>
    intro a
    cases h : stepOutcome ep t mr a (sched a) with
    | terminal res => simp [attemptLoop, h]
    | retry =>
      have h2 := ih (a + 1)
      simp only [attemptLoop, h]
      omega

theorem attemptLoop_retry_of_lt (ep : String) (t mr : Nat)
    (sched : Nat → Outcome) :
    ∀ r a i, a ≤ i → i + 1 < (attemptLoop ep t mr sched a r).attemptsMade →
      stepOutcome ep t mr i (sched i) = .retry := by
  intro r
  induction r with
  | zero =>
    intro a i hai hlt
    simp [attemptLoop] at hlt
    omega
  | succ r ih =>
    intro a i hai hlt
    cases h : stepOutcome ep t mr a (sched a) with
    | terminal res =>
      simp [attemptLoop, h] at hlt
      omega
    | retry =>
      simp only [attemptLoop, h] at hlt
      rcases Nat.eq_or_lt_of_le hai with rfl | hlt2
      · exact h
      · exact ih (a + 1) i hlt2 hlt

theorem stepOutcome_retry_iff (ep : String) (t mr a : Nat) (o : Outcome) :
    stepOutcome ep t mr a o = .retry ↔
      (retryable o = true ∧ a ≠ mr - 1) := by
  cases o with
  | response s b txt =>
    simp only [stepOutcome, retryable, decide_eq_true_eq]
    split_ifs with h1 h2 h3 h4 h5 h6 h7 <;> (cases b <;> simp <;> omega)
  | connError m =>
    simp only [stepOutcome, retryable]
    split_ifs with h <;> simp [h]
  | timeout =>
    simp only [stepOutcome, retryable]
    split_ifs with h <;> simp [h]

theorem attemptLoop_reach (ep : String) (t mr : Nat) (sched : Nat → Outcome) :
    ∀ r a i res, a ≤ i → i < a + r →
      (∀ j, a ≤ j → j < i → stepOutcome ep t mr j (sched j) = .retry) →
      stepOutcome ep t mr i (sched i) = .terminal res →
      attemptLoop ep t mr sched a r = ⟨some res, i + 1⟩ := by
  intro r
  induction r with
  | zero => intro a i res hai hir _ _; omega
  | succ r ih =>
    intro a i res hai hir hretry hterm
    rcases Nat.eq_or_lt_of_le hai with rfl | hlt
    · simp [attemptLoop, hterm]
    · have hra : stepOutcome ep t mr a (sched a) = .retry :=
        hretry a (le_refl a) hlt
      simp only [attemptLoop, hra]
      exact ih (a + 1) i res hlt (by omega)
        (fun j hj1 hj2 => hretry j (by omega) hj2) hterm

theorem attemptLoop_conn_all (ep : String) (t mr : Nat)
    (sched : Nat → Outcome)
    (hconn : ∀ i, ∃ m, sched i = .connError m) :
    ∀ r a, a + r = mr → 1 ≤ r →
      ∃ msg, attemptLoop ep t mr sched a r =
        ⟨some (.error (.connection msg)), mr⟩ := by
  intro r
  induction r with
  | zero => intro a _ h1; omega
  | succ r ih =>
    intro a hsum _
    obtain ⟨m, hm⟩ := hconn a
    by_cases hlast : a = mr - 1
    · have hr0 : r = 0 := by omega
      subst hr0
      have hstep : stepOutcome ep t mr a (sched a) =
          .terminal (.error (.connection
            ("Failed to connect to PostHog API after " ++ toString mr ++
              " attempts: " ++ m))) := by
        rw [hm]
        simp [stepOutcome, hlast]
      refine ⟨"Failed to connect to PostHog API after " ++ toString mr ++
        " attempts: " ++ m, ?_⟩
      simp [attemptLoop, hstep, MRes.mk.injEq]
      omega
    · have hstep : stepOutcome ep t mr a (sched a) = .retry := by
        rw [hm]
        simp [stepOutcome, hlast]
      have hr1 : 1 ≤ r := by omega
      obtain ⟨msg, hmsg⟩ := ih (a + 1) (by omega) hr1
      refine ⟨msg, ?_⟩
      simp only [attemptLoop, hstep]
      exact hmsg

theorem stepOutcome_4xx (ep : String) (t mr a : Nat) (s : Nat)
    (b : Option Json) (txt : String) (h4 : 400 ≤ s) (h5 : s < 500) :
    stepOutcome ep t mr a (.response s b txt) =
      .terminal (.error (classify4xx ep s txt)) := by
  simp only [stepOutcome, classify4xx]
  split_ifs with h1 h2 h3 h4' h5' h6 <;>
    first
      | rfl
      | (exfalso; omega)

theorem pyReplaceAux_no_occ (old new : List Char) :
    ∀ (fuel : Nat) (s : List Char), containsSub s old = false →
      pyReplaceAux old new fuel s = s := by
  intro fuel
  induction fuel with
  | zero => intro s _; rfl
  | succ fuel ih =>
    intro s h
    cases s with
    | nil => rfl
    | cons c rest =>
      simp only [containsSub, Bool.or_eq_false_iff] at h
      obtain ⟨h1, h2⟩ := h
      simp only [pyReplaceAux]
      rw [if_neg (by simp [h1]), ih rest h2]

theorem pyReplace_no_occ (s old new : List Char)
    (h : containsSub s old = false) : pyReplace s old new = s :=
  pyReplaceAux_no_occ old new s.length s h

theorem makeRequest_client_error (req : Request) (t mr : Nat)
    (sched : Nat → Outcome) (i s : Nat) (b : Option Json) (txt : String)
    (hi : i < mr)
    (hprev : ∀ j, j < i → stepOutcome req.endpoint t mr j (sched j) = .retry)
    (hsi : sched i = .response s b txt) (h4 : 400 ≤ s) (h5 : s < 500) :
    makeRequest req t mr sched =
      ⟨some (.error (classify4xx req.endpoint s txt)), i + 1⟩ := by
  have hstep : stepOutcome req.endpoint t mr i (sched i) =
      .terminal (.error (classify4xx req.endpoint s txt)) := by
    rw [hsi]
    exact stepOutcome_4xx req.endpoint t mr i s b txt h4 h5
  have h := attemptLoop_reach req.endpoint t mr sched mr 0 i
    (.error (classify4xx req.endpoint s txt)) (Nat.zero_le i) (by omega)
    (fun j _ hj => hprev j hj) hstep
  simpa [makeRequest] using h

/-! ### Claim theorems -/

/-- Claim C2, counterexample: the claim "the request executor retries only when
the attempt fails with a connection failure or a timeout, ... and no other
outcome (including a non-4xx error response) is retried" is false.  If it
held, then whenever the first attempt yields a server response (so neither a
connection failure nor a timeout) the executor would stop after that one
attempt; the schedule whose first attempt is a 500 response and whose second
is a 200 success refutes this: with `max_retries = 3` the executor performs
a second attempt and returns the success. -/
theorem c2_retry_claim_counterexample :
    ¬ (∀ sched : Nat → Outcome,
        claimedRetryable (sched 0) = false →
        (makeRequest ⟨"POST", false, "/api/projects/p/query/", none⟩
            30 3 sched).attemptsMade ≤ 1) := by
  intro hclaim
  have h1 := hclaim
    (fun i => if i = 0 then .response 500 none "server error"
      else .response 200 (some (Json.obj [])) "")
    (by decide)
  have h2 : (makeRequest ⟨"POST", false, "/api/projects/p/query/", none⟩ 30 3
      (fun i => if i = 0 then .response 500 none "server error"
        else .response 200 (some (Json.obj [])) "")).attemptsMade = 2 := by
    decide
  omega

/-- Claim C2, amended: the request executor performs at most `max_retries`
attempts; every attempt that is followed by another was retried because its
outcome was a connection failure, a timeout, or a response with a
server-error status in `[500, 600)`; an attempt that yields a 4xx response
terminates the executor immediately (at that attempt) with the classified
failure, without retry; and the constructor default for `max_retries`
is 3. -/
theorem c2_retry_policy_amended (req : Request) (t mr : Nat)
    (sched : Nat → Outcome) :
    defaultMaxRetries = 3 ∧
    (makeRequest req t mr sched).attemptsMade ≤ mr ∧
    (∀ i, i + 1 < (makeRequest req t mr sched).attemptsMade →
      retryable (sched i) = true) ∧
    (∀ i s b txt, i < mr →
      (∀ j, j < i → stepOutcome req.endpoint t mr j (sched j) = .retry) →
      sched i = .response s b txt → 400 ≤ s → s < 500 →
      makeRequest req t mr sched =
        ⟨some (.error (classify4xx req.endpoint s txt)), i + 1⟩) := by
  refine ⟨rfl, ?_, ?_, ?_⟩
  · simpa [makeRequest] using
      attemptLoop_attemptsMade_le req.endpoint t mr sched mr 0
  · intro i hi
    have hr := attemptLoop_retry_of_lt req.endpoint t mr sched mr 0 i
      (Nat.zero_le i) hi
    exact ((stepOutcome_retry_iff req.endpoint t mr i (sched i)).mp hr).1
  · intro i s b txt hi hprev hsi h4 h5
    exact makeRequest_client_error req t mr sched i s b txt hi hprev hsi h4 h5

/-- Witness for `c2_retry_policy_amended`: with one allowed attempt and a
schedule answering 404, the executor stops after one attempt with the
object-not-found failure. -/
theorem c2_retry_policy_amended_witness :
    makeRequest ⟨"GET", false, "/e/", none⟩ 30 1
        (fun _ => .response 404 none "nf") =
      ⟨some (.error (.objectNotFound "Resource not found: /e/")), 1⟩ := by
  have h := (c2_retry_policy_amended ⟨"GET", false, "/e/", none⟩ 30 1
      (fun _ => .response 404 none "nf")).2.2.2 0 404 none "nf"
    (by omega) (fun j hj => absurd hj (by omega)) rfl (by omega) (by omega)
  simpa [classify4xx] using h

/-- Claim C3: with `max_retries = 3`, two connection failures followed by a
successful response return the success result (after exactly 3 attempts) and
raise nothing; with any `max_retries ≥ 1`, a schedule of nothing but
connection failures raises a Connection failure after exactly `max_retries`
attempts. -/
theorem c3_retry_sequences (req : Request) (t : Nat) :
    (∀ (sched : Nat → Outcome) (m0 m1 : String) (s : Nat) (j : Json)
        (txt : String),
      sched 0 = .connError m0 → sched 1 = .connError m1 →
      sched 2 = .response s (some j) txt → s < 400 →
      makeRequest req t 3 sched = ⟨some (.ok j), 3⟩) ∧
    (∀ (mr : Nat) (sched : Nat → Outcome), 1 ≤ mr →
      (∀ i, ∃ m, sched i = .connError m) →
      ∃ msg, makeRequest req t mr sched =
        ⟨some (.error (.connection msg)), mr⟩) := by
  constructor
  · intro sched m0 m1 s j txt h0 h1 h2 hs
    have hterm : stepOutcome req.endpoint t 3 2 (sched 2) =
        .terminal (.ok j) := by
      rw [h2]
      simp only [stepOutcome]
      rw [if_neg (by omega), if_neg (by omega), if_neg (by omega),
        if_neg (by omega), if_neg (by omega)]
    have h := attemptLoop_reach req.endpoint t 3 sched 3 0 2 (.ok j)
      (by omega) (by omega) ?_ hterm
    · simpa [makeRequest] using h
    · intro k hk1 hk2
      interval_cases k
      · rw [h0]; simp [stepOutcome]
      · rw [h1]; simp [stepOutcome]
  · intro mr sched hmr hconn
    obtain ⟨msg, hmsg⟩ :=
      attemptLoop_conn_all req.endpoint t mr sched hconn mr 0 (by omega) hmr
    exact ⟨msg, by simpa [makeRequest] using hmsg⟩

/-- Witness for `c3_retry_sequences`: a concrete schedule of two connection
failures then a 200 response, and a concrete always-failing schedule. -/
theorem c3_retry_sequences_witness :
    makeRequest ⟨"POST", false, "/q/", none⟩ 30 3
        (fun i => if i = 0 then .connError "e0"
          else if i = 1 then .connError "e1"
          else .response 200 (some (Json.str "row")) "") =
      ⟨some (.ok (Json.str "row")), 3⟩ ∧
    (∃ msg, makeRequest ⟨"POST", false, "/q/", none⟩ 30 2
        (fun _ => .connError "down") =
      ⟨some (.error (.connection msg)), 2⟩) := by
  constructor
  · exact (c3_retry_sequences ⟨"POST", false, "/q/", none⟩ 30).1
      (fun i => if i = 0 then .connError "e0"
        else if i = 1 then .connError "e1"
        else .response 200 (some (Json.str "row")) "")
      "e0" "e1" 200 (Json.str "row") "" rfl rfl rfl (by omega)
  · exact (c3_retry_sequences ⟨"POST", false, "/q/", none⟩ 30).2 2
      (fun _ => .connError "down") (by omega) (fun i => ⟨"down", rfl⟩)

/-- Claim C4: whenever an attempt (reached after only retried attempts) yields a
response, status 401 or 403 raises an Authentication failure, 404 raises an
Object-not-found failure, and 429 raises a Rate-limit failure, each
immediately (the executor stops at that attempt, without retry); and the
rate-limit message states the known limits. -/
theorem c4_status_classification (req : Request) (t mr : Nat) :
    (∀ (sched : Nat → Outcome) (i : Nat) (b : Option Json) (txt : String),
      i < mr →
      (∀ j, j < i → stepOutcome req.endpoint t mr j (sched j) = .retry) →
      sched i = .response 401 b txt →
      makeRequest req t mr sched =
        ⟨some (.error (.authentication
          "Authentication failed. Check your Personal API key.")), i + 1⟩) ∧
    (∀ (sched : Nat → Outcome) (i : Nat) (b : Option Json) (txt : String),
      i < mr →
      (∀ j, j < i → stepOutcome req.endpoint t mr j (sched j) = .retry) →
      sched i = .response 403 b txt →
      makeRequest req t mr sched =
        ⟨some (.error (.authentication
          "Access forbidden. Check API key permissions.")), i + 1⟩) ∧
    (∀ (sched : Nat → Outcome) (i : Nat) (b : Option Json) (txt : String),
      i < mr →
      (∀ j, j < i → stepOutcome req.endpoint t mr j (sched j) = .retry) →
      sched i = .response 404 b txt →
      makeRequest req t mr sched =
        ⟨some (.error (.objectNotFound
          ("Resource not found: " ++ req.endpoint))), i + 1⟩) ∧
    (∀ (sched : Nat → Outcome) (i : Nat) (b : Option Json) (txt : String),
      i < mr →
      (∀ j, j < i → stepOutcome req.endpoint t mr j (sched j) = .retry) →
      sched i = .response 429 b txt →
      makeRequest req t mr sched =
        ⟨some (.error (.rateLimit rateLimitMessage)), i + 1⟩) ∧
    containsSub rateLimitMessage.data "240/min, 1200/hour".data = true ∧
    containsSub rateLimitMessage.data "2400/hour for queries".data = true := by
  refine ⟨?_, ?_, ?_, ?_, by decide, by decide⟩ <;>
    · intro sched i b txt hi hprev hsi
      have h := makeRequest_client_error req t mr sched i _ b txt hi hprev
        hsi (by omega) (by omega)
      simpa [classify4xx] using h

/-- Witness for `c4_status_classification`: one-attempt schedules answering
401, 403, 404 and 429. -/
theorem c4_status_classification_witness :
    makeRequest ⟨"GET", false, "/a/", none⟩ 30 1
        (fun _ => .response 401 none "") =
      ⟨some (.error (.authentication
        "Authentication failed. Check your Personal API key.")), 1⟩ ∧
    makeRequest ⟨"GET", false, "/a/", none⟩ 30 1
        (fun _ => .response 403 none "") =
      ⟨some (.error (.authentication
        "Access forbidden. Check API key permissions.")), 1⟩ ∧
    makeRequest ⟨"GET", false, "/a/", none⟩ 30 1
        (fun _ => .response 404 none "") =
      ⟨some (.error (.objectNotFound "Resource not found: /a/")), 1⟩ ∧
    makeRequest ⟨"GET", false, "/a/", none⟩ 30 1
        (fun _ => .response 429 none "") =
      ⟨some (.error (.rateLimit rateLimitMessage)), 1⟩ := by
  refine ⟨?_, ?_, ?_, ?_⟩
  · exact (c4_status_classification ⟨"GET", false, "/a/", none⟩ 30 1).1
      (fun _ => .response 401 none "") 0 none "" (by omega)
      (fun j hj => absurd hj (by omega)) rfl
  · exact (c4_status_classification ⟨"GET", false, "/a/", none⟩ 30 1).2.1
      (fun _ => .response 403 none "") 0 none "" (by omega)
      (fun j hj => absurd hj (by omega)) rfl
  · exact (c4_status_classification ⟨"GET", false, "/a/", none⟩ 30 1).2.2.1
      (fun _ => .response 404 none "") 0 none "" (by omega)
      (fun j hj => absurd hj (by omega)) rfl
  · exact (c4_status_classification ⟨"GET", false, "/a/", none⟩ 30 1).2.2.2.1
      (fun _ => .response 429 none "") 0 none "" (by omega)
      (fun j hj => absurd hj (by omega)) rfl

/-- Claim C10: with `max_retries = 0` the loop body never runs: `_make_request`
performs zero attempts and returns `None`; consequently `query` on any
non-empty, non-whitespace string fails with a Query-execution failure (from
`None.get(...)`), not a Connection or generic API failure. -/
theorem c10_zero_retries (req : Request) (t : Nat) (sched : Nat → Outcome) :
    makeRequest req t 0 sched = ⟨none, 0⟩ ∧
    (∀ (pid q : String), ¬(q = "" ∨ pyStrip q = "") →
      (queryModel pid t 0 sched q).1 =
        .error (.queryError ("Query execution failed: " ++ noneGetAttrMsg))) := by
  constructor
  · rfl
  · intro pid q hq
    simp only [queryModel, if_neg hq]
    rfl

/-- Witness for `c10_zero_retries`: the non-empty query "SELECT 1". -/
theorem c10_zero_retries_witness :
    (queryModel "p1" 30 0 (fun _ => Outcome.timeout) "SELECT 1").1 =
      .error (.queryError ("Query execution failed: " ++ noneGetAttrMsg)) :=
  (c10_zero_retries ⟨"POST", false, "/api/projects/p1/query/", none⟩ 30
    (fun _ => Outcome.timeout)).2 "p1" "SELECT 1" (by decide)

/-- Claim C1: `query` fails with a Validation failure (making no request) on an
empty or whitespace-only string; on any other string it hands exactly one
POST to `/api/projects/{id}/query/` with the HogQL payload to the executor,
returns the `results` value of a parsed-object response (the empty list when
the key is absent), re-raises a classified failure unchanged, and wraps the
non-classified `None`-result failure as a Query-execution failure carrying
the original message. -/
theorem c1_query_contract (pid : String) (t mr : Nat)
    (sched : Nat → Outcome) :
    (∀ q : String, (q = "" ∨ pyStrip q = "") →
      queryModel pid t mr sched q =
        (.error (.validation "Query cannot be empty"), [])) ∧
    (∀ q : String, ¬(q = "" ∨ pyStrip q = "") →
      (queryModel pid t mr sched q).2 = [queryRequest pid q] ∧
      queryRequest pid q =
        { method := "POST", useCaptureUrl := false,
          endpoint := "/api/projects/" ++ pid ++ "/query/",
          body := some (Json.obj
            [("query", Json.obj [("kind", Json.str "HogQLQuery"),
              ("query", Json.str q)])]) }) ∧
    (∀ q : String, ¬(q = "" ∨ pyStrip q = "") →
      ∀ fields : List (String × Json),
        (makeRequest (queryRequest pid q) t mr sched).result =
          some (.ok (Json.obj fields)) →
        (∀ v, List.lookup "results" fields = some v →
          (queryModel pid t mr sched q).1 = .ok v) ∧
        (List.lookup "results" fields = none →
          (queryModel pid t mr sched q).1 = .ok (Json.arr []))) ∧
    (∀ q : String, ¬(q = "" ∨ pyStrip q = "") →
      ∀ e : PHError,
        (makeRequest (queryRequest pid q) t mr sched).result =
          some (.error e) →
        (queryModel pid t mr sched q).1 = .error e) ∧
    (∀ q : String, ¬(q = "" ∨ pyStrip q = "") →
      (makeRequest (queryRequest pid q) t mr sched).result = none →
      (queryModel pid t mr sched q).1 =
        .error (.queryError
          ("Query execution failed: " ++ noneGetAttrMsg))) := by
  refine ⟨?_, ?_, ?_, ?_, ?_⟩
  · intro q hq
    simp only [queryModel, if_pos hq]
  · intro q hq
    exact ⟨by simp only [queryModel, if_neg hq], rfl⟩
  · intro q hq fields hres
    constructor
    · intro v hv
      simp only [queryModel, if_neg hq, hres, queryPost, hv]
    · intro hnone
      simp only [queryModel, if_neg hq, hres, queryPost, hnone]
  · intro q hq e hres
    simp only [queryModel, if_neg hq, hres, queryPost]
  · intro q hq hres
    simp only [queryModel, if_neg hq, hres, queryPost]

/-- Witness for `c1_query_contract`: the whitespace-only query "   " is
rejected without a request, and "SELECT 1" against a 200 response whose
body holds a `results` array returns that array. -/
theorem c1_query_contract_witness :
    queryModel "p1" 30 3
        (fun _ => .response 200
          (some (Json.obj [("results", Json.arr [Json.num 7])])) "")
        "   " =
      (.error (.validation "Query cannot be empty"), []) ∧
    (queryModel "p1" 30 3
        (fun _ => .response 200
          (some (Json.obj [("results", Json.arr [Json.num 7])])) "")
        "SELECT 1").1 = .ok (Json.arr [Json.num 7]) := by
  constructor
  · exact (c1_query_contract "p1" 30 3
      (fun _ => .response 200
        (some (Json.obj [("results", Json.arr [Json.num 7])])) "")).1
      "   " (Or.inr (by decide))
  · exact ((c1_query_contract "p1" 30 3
      (fun _ => .response 200
        (some (Json.obj [("results", Json.arr [Json.num 7])])) "")).2.2.1
      "SELECT 1" (by decide) [("results", Json.arr [Json.num 7])] rfl).1
      (Json.arr [Json.num 7]) rfl

/-- Claim C5: `list_objects` returns the fixed ordered list of 8 entity-type
names; for each of them `get_fields` returns a non-empty mapping whose every
field definition has both a `type` and a `description` key; for any other
name it raises an Object-not-found failure whose message enumerates all 8
valid names. -/
theorem c5_driver_discovery :
    listObjects = ["events", "insights", "persons", "cohorts",
      "feature_flags", "sessions", "annotations", "experiments"] ∧
    listObjects.length = 8 ∧
    (∀ name ∈ listObjects, ∃ flds : EntityFields,
      getFields name = .ok flds ∧ flds ≠ [] ∧
      ∀ p ∈ flds, (List.lookup "type" p.2).isSome = true ∧
        (List.lookup "description" p.2).isSome = true) ∧
    (∀ name : String, name ∉ listObjects →
      getFields name = .error (.objectNotFound (unknownObjectMsg name))) ∧
    (∀ name ∈ listObjects,
      containsSub (String.intercalate ", " listObjects).data name.data =
        true) := by
  refine ⟨rfl, rfl, ?_, ?_, by decide⟩
  · intro name h
    simp only [listObjects] at h
    fin_cases h <;> exact ⟨_, rfl, by decide, by decide⟩
  · intro name h
    simp only [listObjects, List.mem_cons, List.not_mem_nil, or_false,
      not_or] at h
    obtain ⟨h1, h2, h3, h4, h5, h6, h7, h8⟩ := h
    have e1 : (name == "events") = false := beq_eq_false_iff_ne.mpr h1
    have e2 : (name == "insights") = false := beq_eq_false_iff_ne.mpr h2
    have e3 : (name == "persons") = false := beq_eq_false_iff_ne.mpr h3
    have e4 : (name == "cohorts") = false := beq_eq_false_iff_ne.mpr h4
    have e5 : (name == "feature_flags") = false := beq_eq_false_iff_ne.mpr h5
    have e6 : (name == "sessions") = false := beq_eq_false_iff_ne.mpr h6
    have e7 : (name == "annotations") = false := beq_eq_false_iff_ne.mpr h7
    have e8 : (name == "experiments") = false := beq_eq_false_iff_ne.mpr h8
    simp only [getFields, schemas, List.lookup, e1, e2, e3, e4, e5, e6, e7,
      e8]

/-- Witness for `c5_driver_discovery`: the known name "events" and the
unknown name "nonexistent". -/
theorem c5_driver_discovery_witness :
    (∃ flds : EntityFields, getFields "events" = .ok flds ∧ flds ≠ [] ∧
      ∀ p ∈ flds, (List.lookup "type" p.2).isSome = true ∧
        (List.lookup "description" p.2).isSome = true) ∧
    getFields "nonexistent" =
      .error (.objectNotFound (unknownObjectMsg "nonexistent")) ∧
    containsSub (String.intercalate ", " listObjects).data
      "feature_flags".data = true := by
  refine ⟨?_, ?_, ?_⟩
  · exact c5_driver_discovery.2.2.1 "events" (by decide)
  · exact c5_driver_discovery.2.2.2.1 "nonexistent" (by decide)
  · exact c5_driver_discovery.2.2.2.2 "feature_flags" (by decide)

/-- Claim C6: the capture URL derived from `https://us.posthog.com` is
`https://us.i.posthog.com` and from `https://eu.posthog.com` is
`https://eu.i.posthog.com`; requests flagged for capture resolve against the
derived capture host and all others against the base host; the batch-capture
request is capture-flagged and the query request is not. -/
theorem c6_capture_url_routing :
    captureUrlOf "https://us.posthog.com" = "https://us.i.posthog.com" ∧
    captureUrlOf "https://eu.posthog.com" = "https://eu.i.posthog.com" ∧
    (∀ (apiUrl : String) (r : Request), r.useCaptureUrl = true →
      requestUrl apiUrl r = captureUrlOf apiUrl ++ r.endpoint) ∧
    (∀ (apiUrl : String) (r : Request), r.useCaptureUrl = false →
      requestUrl apiUrl r = apiUrl ++ r.endpoint) ∧
    (∀ (key : String) (events : List Json),
      (captureBatchRequest key events).useCaptureUrl = true) ∧
    (∀ pid q : String, (queryRequest pid q).useCaptureUrl = false) := by
  refine ⟨by decide, by decide, ?_, ?_, fun _ _ => rfl, fun _ _ => rfl⟩
  · intro apiUrl r h
    simp [requestUrl, h]
  · intro apiUrl r h
    simp [requestUrl, h]

/-- Witness for `c6_capture_url_routing`: the `/batch/` endpoint on the US
base URL resolves against the derived capture host. -/
theorem c6_capture_url_routing_witness :
    requestUrl "https://us.posthog.com" ⟨"POST", true, "/batch/", none⟩ =
      captureUrlOf "https://us.posthog.com" ++ "/batch/" ∧
    requestUrl "https://us.posthog.com"
        ⟨"POST", false, "/api/projects/p/query/", none⟩ =
      "https://us.posthog.com" ++ "/api/projects/p/query/" := by
  constructor
  · exact c6_capture_url_routing.2.2.1 "https://us.posthog.com"
      ⟨"POST", true, "/batch/", none⟩ rfl
  · exact c6_capture_url_routing.2.2.2.1 "https://us.posthog.com"
      ⟨"POST", false, "/api/projects/p/query/", none⟩ rfl

/-- The template of the specification's substitution test:
`"SELECT * FROM events WHERE event = '{event_name}'"`. -/
def c7Template : String :=
  "SELECT * FROM events WHERE event = " ++ sqStr ++ "{event_name}" ++ sqStr

/-- The expected output of the specification's substitution test:
`"SELECT * FROM events WHERE event = 'Signup'"`. -/
def c7Expected : String :=
  "SELECT * FROM events WHERE event = " ++ sqStr ++ "Signup" ++ sqStr

/-- Claim C7: substituting `{event_name: "Signup"}` into the test template yields
exactly the expected string; a mapping that does not mention the template's
placeholder leaves the template unchanged (the placeholder passes through
verbatim, nothing raises); and in general a mapping entry whose placeholder
does not occur in the script changes nothing. -/
theorem c7_template_substitution :
    substituteVars c7Template [("event_name", "Signup")] = c7Expected ∧
    substituteVars c7Template [("other_key", "Signup")] = c7Template ∧
    (∀ (s n v : String), containsSub s.data (placeholderOf n) = false →
      substituteVars s [(n, v)] = s) := by
  refine ⟨by decide, by decide, ?_⟩
  intro s n v h
  simp only [substituteVars]
  rw [pyReplace_no_occ s.data (placeholderOf n) v.data h]

/-- Witness for `c7_template_substitution`: substituting a variable that
does not occur in `"SELECT 1"` leaves it unchanged. -/
theorem c7_template_substitution_witness :
    substituteVars "SELECT 1" [("event_name", "Signup")] = "SELECT 1" :=
  c7_template_substitution.2.2 "SELECT 1" "event_name" "Signup" (by decide)

/-- Claim C8: routing is case-insensitive keyword membership with the fixed
precedence top events → funnel → conversion → activity → time; a question
whose lowercasing contains "top events" routes to the top-events category,
a question matching no keyword set defaults to the top-events category, the
first matching category wins, and the time-period argument maps
7_days/30_days/90_days to 7/30/90 with 30 as the default. -/
theorem c8_question_routing :
    (∀ q : String, containsSub (questionLower q) "top events".data = true →
      questionCategory q = .topEvents) ∧
    (∀ q : String,
      anyKeyword (questionLower q) topEventsKeywords = false →
      anyKeyword (questionLower q) funnelKeywords = false →
      anyKeyword (questionLower q) conversionKeywords = false →
      anyKeyword (questionLower q) activityKeywords = false →
      anyKeyword (questionLower q) timeKeywords = false →
      questionCategory q = .topEvents) ∧
    (∀ q : String, anyKeyword (questionLower q) topEventsKeywords = true →
      questionCategory q = .topEvents) ∧
    (∀ q : String,
      anyKeyword (questionLower q) topEventsKeywords = false →
      anyKeyword (questionLower q) funnelKeywords = true →
      questionCategory q = .userFunnel) ∧
    (∀ q : String,
      anyKeyword (questionLower q) topEventsKeywords = false →
      anyKeyword (questionLower q) funnelKeywords = false →
      anyKeyword (questionLower q) conversionKeywords = true →
      questionCategory q = .conversionAnalysis) ∧
    (∀ q : String,
      anyKeyword (questionLower q) topEventsKeywords = false →
      anyKeyword (questionLower q) funnelKeywords = false →
      anyKeyword (questionLower q) conversionKeywords = false →
      anyKeyword (questionLower q) activityKeywords = true →
      questionCategory q = .activityDistribution) ∧
    (∀ q : String,
      anyKeyword (questionLower q) topEventsKeywords = false →
      anyKeyword (questionLower q) funnelKeywords = false →
      anyKeyword (questionLower q) conversionKeywords = false →
      anyKeyword (questionLower q) activityKeywords = false →
      anyKeyword (questionLower q) timeKeywords = true →
      questionCategory q = .timePatterns) ∧
    daysOf "7_days" = 7 ∧ daysOf "30_days" = 30 ∧ daysOf "90_days" = 90 ∧
    (∀ tp : String, tp ≠ "7_days" → tp ≠ "30_days" → tp ≠ "90_days" →
      daysOf tp = 30) ∧
    (∀ q tp : String,
      questionToQuery q tp = (questionCategory q, daysOf tp)) := by
  refine ⟨?_, ?_, ?_, ?_, ?_, ?_, ?_, rfl, rfl, rfl, ?_, fun _ _ => rfl⟩
  · intro q h
    have ha : anyKeyword (questionLower q) topEventsKeywords = true := by
      simp [anyKeyword, topEventsKeywords, h]
    simp [questionCategory, ha]
  · intro q h1 h2 h3 h4 h5
    simp [questionCategory, h1, h2, h3, h4, h5]
  · intro q h1
    simp [questionCategory, h1]
  · intro q h1 h2
    simp [questionCategory, h1, h2]
  · intro q h1 h2 h3
    simp [questionCategory, h1, h2, h3]
  · intro q h1 h2 h3 h4
    simp [questionCategory, h1, h2, h3, h4]
  · intro q h1 h2 h3 h4 h5
    simp [questionCategory, h1, h2, h3, h4, h5]
  · intro tp n1 n2 n3
    have e1 : (tp == "7_days") = false := beq_eq_false_iff_ne.mpr n1
    have e2 : (tp == "30_days") = false := beq_eq_false_iff_ne.mpr n2
    have e3 : (tp == "90_days") = false := beq_eq_false_iff_ne.mpr n3
    simp only [daysOf, List.lookup, e1, e2, e3, Option.getD_none]

/-- Witness for `c8_question_routing`: concrete questions exercising the
upper-case match, the default fallback, the funnel branch and the non-enum
time period. -/
theorem c8_question_routing_witness :
    questionCategory "Show me the TOP EVENTS please" = .topEvents ∧
    questionCategory "xyzzy" = .topEvents ∧
    questionCategory "where is the funnel broken" = .userFunnel ∧
    daysOf "365_days" = 30 := by
  refine ⟨?_, ?_, ?_, ?_⟩
  · exact c8_question_routing.1 "Show me the TOP EVENTS please" (by decide)
  · exact c8_question_routing.2.1 "xyzzy" (by decide) (by decide) (by decide)
      (by decide) (by decide)
  · exact c8_question_routing.2.2.2.1 "where is the funnel broken"
      (by decide) (by decide)
  · exact c8_question_routing.2.2.2.2.2.2.2.2.2.2.1 "365_days" (by decide)
      (by decide) (by decide)

/-- Claim C9: `capture_batch` raises an Authentication failure when no
capture-capable key is configured (making no request); with a key, an empty
list raises a Validation failure without any request; and a non-empty list
hands exactly one POST to `/batch/` on the capture host to the executor,
whose payload holds the input list under `batch` and the key under
`api_key`, returning the executor's result. -/
theorem c9_capture_batch (t mr : Nat) (sched : Nat → Outcome) :
    (∀ events : List Json,
      captureBatchModel none events t mr sched =
        (.error (.authentication
          "Project API key required for event capture"), [])) ∧
    (∀ key : String, key ≠ "" →
      captureBatchModel (some key) [] t mr sched =
        (.error (.validation "Events list cannot be empty"), [])) ∧
    (∀ (key : String) (events : List Json), key ≠ "" → events ≠ [] →
      (captureBatchModel (some key) events t mr sched).2 =
        [captureBatchRequest key events] ∧
      captureBatchRequest key events =
        { method := "POST", useCaptureUrl := true, endpoint := "/batch/",
          body := some (Json.obj [("api_key", Json.str key),
            ("batch", Json.arr events)]) } ∧
      (captureBatchModel (some key) events t mr sched).1 =
        mrReturn (makeRequest (captureBatchRequest key events) t mr
          sched).result) := by
  refine ⟨fun _ => rfl, ?_, ?_⟩
  · intro key hk
    simp [captureBatchModel, keyTruthy, hk]
  · intro key events hk hne
    have hemp : events.isEmpty = false := by
      cases events with
      | nil => exact absurd rfl hne
      | cons e es => rfl
    refine ⟨?_, rfl, ?_⟩ <;>
      simp [captureBatchModel, keyTruthy, hk, hemp, Option.getD]

/-- Witness for `c9_capture_batch`: a concrete key and one-event batch. -/
theorem c9_capture_batch_witness :
    captureBatchModel none [] 30 3 (fun _ => Outcome.timeout) =
      (.error (.authentication
        "Project API key required for event capture"), []) ∧
    captureBatchModel (some "phc_key") [] 30 3 (fun _ => Outcome.timeout) =
      (.error (.validation "Events list cannot be empty"), []) ∧
    (captureBatchModel (some "phc_key")
        [Json.obj [("event", Json.str "Page View")]] 30 3
        (fun _ => Outcome.timeout)).2 =
      [captureBatchRequest "phc_key"
        [Json.obj [("event", Json.str "Page View")]]] := by
  refine ⟨?_, ?_, ?_⟩
  · exact (c9_capture_batch 30 3 (fun _ => Outcome.timeout)).1 []
  · exact (c9_capture_batch 30 3 (fun _ => Outcome.timeout)).2.1 "phc_key"
      (by decide)
  · exact ((c9_capture_batch 30 3 (fun _ => Outcome.timeout)).2.2 "phc_key"
      [Json.obj [("event", Json.str "Page View")]] (by decide)
      (by simp)).1
